import Mathlib

/-!
Shallow embedding of the Solaris libusb backend (src/libusb/os/solaris_usb.c):
the device-discovery walker (solaris_get_device_list), the identity resolver
(solaris_add_device with its helper di_prop_get_int), and the stubbed backend
entry points.  C strings are modelled as List Char, C int values as Int, and
the external collaborators (readdir, realpath, di_init, di_prop_lookup_ints)
as explicit environment data.
-/

namespace SolarisUsb

/-- libusb error codes returned by the backend functions in this file
(LIBUSB_ERROR_INVALID_PARAM, _ACCESS, _NO_DEVICE, _NO_MEM, _NOT_SUPPORTED). -/
inductive LibusbCode where
  | errInvalidParam
  | errAccess
  | errNoDevice
  | errNoMem
  | errNotSupported
deriving DecidableEq

/-- the values of enum libusb_speed assigned by solaris_add_device
(LIBUSB_SPEED_LOW / _FULL / _HIGH / _SUPER; _UNKNOWN is never assigned). -/
inductive LibusbSpeed where
  | low
  | full
  | high
  | super
deriving DecidableEq

/-- a di_node_t opened by di_init, exposing di_prop_lookup_ints: for each
property name, none models a failed lookup (negative return from
di_prop_lookup_ints) and some l a successful lookup yielding the list l of
integer values (l.length is the returned count; l = [] is an empty property). -/
structure DINode where
  prop : String → Option (List Int)

/-- return value of the C helper di_prop_get_int (lines 114-138): the raw
di_prop_lookup_ints count on success, and a negative code (modelled as -1)
on lookup failure.  The helper only ever compares this value with 0 and 1. -/
def di_prop_get_int_ret (n : DINode) (propname : String) : Int :=
  match n.prop propname with
  | none => -1
  | some l => (l.length : Int)

/-- the out-parameter of di_prop_get_int: written exactly when the lookup
returns 1 (one integer value), in which case it is that value.  Callers in
solaris_add_device require di_prop_get_int to return exactly 1 before using
the out value, which is this function returning some. -/
def di_prop_get_int_one (n : DINode) (propname : String) : Option Int :=
  match n.prop propname with
  | some [v] => some v
  | _ => none

/-- session_id = busnum << 8 | devaddr (line 195); the C left shift of the
int busnum by 8 is modelled as multiplication by 256, and | as Int.lor. -/
def sessionId (busnum devaddr : Int) : Int :=
  Int.lor (busnum * 256) devaddr

/-- the identity record derived by solaris_add_device for one device node:
its local variables busnum, devaddr, numconf, speed and session_id at the
point where the session_id debug line (line 196) is reached. -/
structure DeviceIdentity where
  session_id : Int
  bus_number : Int
  device_address : Int
  num_configs : Int
  speed : LibusbSpeed
deriving DecidableEq

/-- speed classification of solaris_add_device (lines 170-179): probe the
four speed properties in order and take the first whose di_prop_get_int
return is >= 0 (the out pointer is NULL, so only the return value matters);
default LIBUSB_SPEED_FULL when all four lookups fail. -/
def deviceSpeed (n : DINode) : LibusbSpeed :=
  if 0 ≤ di_prop_get_int_ret n "low-speed" then .low
  else if 0 ≤ di_prop_get_int_ret n "full-speed" then .full
  else if 0 ≤ di_prop_get_int_ret n "high-speed" then .high
  else if 0 ≤ di_prop_get_int_ret n "super-speed" then .super
  else .full

/-- strrchr: splits a C string at the LAST occurrence of character c,
returning (text before it, text after it), or none when c does not occur.
strrchr itself returns a pointer to the last occurrence; the two components
here are what the callers read from that pointer (the suffix after it, for
the device address) or make of the string truncated there (the prefix, for
the colon truncation). -/
def strrchrSplit (c : Char) : List Char → Option (List Char × List Char)
  | [] => none
  | x :: xs =>
    match strrchrSplit c xs with
    | some (b, a) => some (x :: b, a)
    | none => if x = c then some ([], xs) else none

/-- the isspace class skipped by atoi/strtol before the number. -/
def isSpaceC (c : Char) : Bool :=
  c = ' ' || c = '\t' || c = '\n' || c = '\x0b' || c = '\x0c' || c = '\r'

/-- digit-prefix accumulation loop of atoi: consume decimal digits from the
front, stopping at the first non-digit. -/
def atoiDigits : List Char → Int → Int
  | c :: cs, acc =>
    if c.isDigit then atoiDigits cs (acc * 10 + ((c.toNat - 48 : Nat) : Int))
    else acc
  | [], acc => acc

/-- atoi (line 193): skip leading whitespace, accept one optional sign, then
read the longest decimal-digit prefix; a string with no digit prefix parses
as 0.  Overflow is undefined in C and not modelled (values stay in Int). -/
def atoi (s : List Char) : Int :=
  match s.dropWhile isSpaceC with
  | '-' :: rest => - atoiDigits rest 0
  | '+' :: rest => atoiDigits rest 0
  | s1 => atoiDigits s1 0

/-- observable outcome of one solaris_add_device call: the discovered_devs
list after the call (the parameter discdevs is never written through, so it
is whatever was passed in), the identity whose derivation completed (control
reached the session_id computation at line 195), if any, and whether di_fini
released the node handle before return. -/
structure AddDeviceResult where
  discdevs : List DeviceIdentity
  resolved : Option DeviceIdentity
  finalized : Bool
deriving DecidableEq

/-- solaris_add_device (lines 140-202).  devnode is the di_init result for
device_node_path (none = DI_NODE_NIL).  Every branch after a successful
di_init falls through to the cleanup label calling di_fini; the discovered
devices list is returned untouched on every path, because the function body
never appends to (or otherwise uses) discdevs. -/
def solaris_add_device (devnode : Option DINode) (device_node_path : List Char)
    (discdevs : List DeviceIdentity) : AddDeviceResult :=
  match devnode with
  | none => ⟨discdevs, none, false⟩
  | some n =>
    match di_prop_get_int_one n "assigned-address" with
    | none => ⟨discdevs, none, true⟩
    | some busnum =>
      match di_prop_get_int_one n "usb-num-configs" with
      | none => ⟨discdevs, none, true⟩
      | some numconf =>
        let speed := deviceSpeed n
        match strrchrSplit '@' device_node_path with
        | none => ⟨discdevs, none, true⟩
        | some (_, afterAt) =>
          let devaddr := atoi afterAt
          ⟨discdevs, some ⟨sessionId busnum devaddr, busnum, devaddr, numconf, speed⟩, true⟩

/-- the character class [0-9a-f] of the compiled pattern (line 221). -/
def isHexDigit (c : Char) : Bool :=
  ('0' ≤ c && c ≤ '9') || ('a' ≤ c && c ≤ 'f')

/-- a string that matches the WHOLE extended regular expression
[0-9a-f]+\.[0-9a-f]+ : a nonempty run of hex digits, a literal dot, and a
nonempty run of hex digits (hex digits exclude the dot, so the first dot of
the string is the pattern's dot). -/
def isFullHexDotHex (s : List Char) : Bool :=
  match s.span (fun c => c ≠ '.') with
  | (pre, '.' :: suf) =>
    (!pre.isEmpty) && pre.all isHexDigit && (!suf.isEmpty) && suf.all isHexDigit
  | _ => false

/-- regexec with the compiled pattern (line 240): POSIX regexec searches for
the pattern ANYWHERE in the string (the pattern is not anchored), so the
test succeeds exactly when some contiguous substring matches the whole
pattern.  Contiguous substrings are the prefixes of the suffixes. -/
def regexecHexDotHex (s : List Char) : Bool :=
  s.tails.any (fun t => t.inits.any isFullHexDotHex)

/-- the constant devices[] = "/devices" (line 31); devices_len = 8. -/
def devicesChars : List Char := '/' :: 'd' :: 'e' :: 'v' :: 'i' :: 'c' :: 'e' :: 's' :: []

/-- lines 305-331: check that the realpath result is under /devices
(strncmp of the first devices_len = 8 characters; mismatch skips the
candidate with a warning), strip that prefix, then truncate at the colon
found by strrchr — the LAST colon of the remainder — or, when no colon is
present, warn and leave the remainder unmodified.  Returns the
device_node_path handed to solaris_add_device, or none when skipped. -/
def stripAndTrunc (device_path : List Char) : Option (List Char) :=
  if device_path.take 8 = devicesChars then
    let p := device_path.drop 8
    some (match strrchrSplit ':' p with
          | some (before, _) => before
          | none => p)
  else none

/-- one /dev/usb/<vid.pid>/<instance> directory entry: its name and the
realpath resolution of its devstat witness file (none = realpath failed). -/
structure InstanceEntry where
  name : List Char
  realDevstat : Option (List Char)

/-- one top-level /dev/usb directory entry: its name, whether opendir on it
succeeds, and the instance entries readdir yields inside it. -/
structure GroupEntry where
  name : List Char
  opens : Bool
  instances : List InstanceEntry

/-- per-instance body of the inner readdir loop (lines 269-333), up to the
device_node_path passed to solaris_add_device: skip dotfiles, skip when the
devstat_path buffer (32 bytes for "%s/%s/devstat", where vidpid_path is
9 + glen characters) would overflow, skip on realpath failure, then apply
the /devices check, prefix strip and colon truncation.  glen is the length
of the group directory name. -/
def instanceCandidate (glen : Nat) (inst : InstanceEntry) : Option (List Char) :=
  if inst.name.head? = some '.' then none
  else if 32 ≤ 18 + glen + inst.name.length then none
  else
    match inst.realDevstat with
    | none => none
    | some rp => stripAndTrunc rp

/-- per-group body of the outer readdir loop (lines 238-335), yielding the
device_node_path of every solaris_add_device call made for this group: a
group whose name fails regexec is skipped, as is one whose name overflows
the 19-byte vidpid_path buffer ("%s/%s" with "/dev/usb" gives 9 + length
characters) or whose directory does not open. -/
def groupCandidates (g : GroupEntry) : List (List Char) :=
  if regexecHexDotHex g.name = false then []
  else if 19 ≤ 9 + g.name.length then []
  else if g.opens = false then []
  else g.instances.filterMap (instanceCandidate g.name.length)

/-- the device_node_path of every solaris_add_device call of one whole walk
over the given /dev/usb entries, in walk order. -/
def walkCandidates (root : List GroupEntry) : List (List Char) :=
  (root.map groupCandidates).flatten

/-- environment of one solaris_get_device_list call: whether regcomp
succeeds, the /dev/usb directory (none = opendir fails), and the di_init
behaviour on each device node path (none = DI_NODE_NIL). -/
structure WalkEnv where
  regcompOk : Bool
  rootDir : Option (List GroupEntry)
  diInit : List Char → Option DINode

/-- threading of one solaris_add_device call through the walk state: the
discovered_devs list it returns becomes the new list, and a completed
identity derivation is appended to the derivation trace. -/
def walkFold (diInit : List Char → Option DINode)
    (acc : List DeviceIdentity × List DeviceIdentity) (p : List Char) :
    List DeviceIdentity × List DeviceIdentity :=
  let r := solaris_add_device (diInit p) p acc.1
  (r.discdevs, acc.2 ++ r.resolved.toList)

/-- solaris_get_device_list (lines 205-341).  Returns the libusb code, the
discovered_devs list after the call, and the trace of completed identity
derivations.  regcomp failure returns LIBUSB_ERROR_NO_MEM (line 224) and
opendir("/dev/usb") failure LIBUSB_ERROR_ACCESS (line 233), both before any
entry is visited; otherwise the two readdir loops run to completion and the
function returns LIBUSB_ERROR_NO_DEVICE (line 340). -/
def solaris_get_device_list (env : WalkEnv) (discdevs : List DeviceIdentity) :
    LibusbCode × List DeviceIdentity × List DeviceIdentity :=
  if env.regcompOk = false then (.errNoMem, discdevs, [])
  else
    match env.rootDir with
    | none => (.errAccess, discdevs, [])
    | some root =>
      let res := (walkCandidates root).foldl (walkFold env.diInit) (discdevs, [])
      (.errNoDevice, res.1, res.2)

/-- solaris_open (line 343). -/
def solaris_open (_handle : Unit) : LibusbCode := .errNoDevice

/-- solaris_close (line 349): empty body. -/
def solaris_close (_handle : Unit) : Unit := ()

/-- solaris_get_device_descriptor (line 354). -/
def solaris_get_device_descriptor (_dev _buf _hostEndian : Unit) : LibusbCode := .errNoDevice

/-- solaris_get_active_config_descriptor (line 361). -/
def solaris_get_active_config_descriptor (_dev _buf _len _hostEndian : Unit) : LibusbCode := .errNoDevice

/-- solaris_get_config_descriptor (line 369). -/
def solaris_get_config_descriptor (_dev _idx _buf _len _hostEndian : Unit) : LibusbCode := .errNoDevice

/-- solaris_get_configuration (line 377). -/
def solaris_get_configuration (_handle _config : Unit) : LibusbCode := .errNoDevice

/-- solaris_set_configuration (line 383). -/
def solaris_set_configuration (_handle _config : Unit) : LibusbCode := .errNoDevice

/-- solaris_claim_interface (line 389). -/
def solaris_claim_interface (_handle _iface : Unit) : LibusbCode := .errNoDevice

/-- solaris_release_interface (line 395). -/
def solaris_release_interface (_handle _iface : Unit) : LibusbCode := .errNoDevice

/-- solaris_set_interface_altsetting (line 401). -/
def solaris_set_interface_altsetting (_handle _iface _alt : Unit) : LibusbCode := .errNoDevice

/-- solaris_clear_halt (line 408). -/
def solaris_clear_halt (_handle _endpoint : Unit) : LibusbCode := .errNoDevice

/-- solaris_reset_device (line 415). -/
def solaris_reset_device (_handle : Unit) : LibusbCode := .errNoDevice

/-- solaris_destroy_device (line 421): empty body. -/
def solaris_destroy_device (_dev : Unit) : Unit := ()

/-- solaris_submit_transfer (line 426). -/
def solaris_submit_transfer (_itransfer : Unit) : LibusbCode := .errNoDevice

/-- solaris_cancel_transfer (lines 432-438): logs and returns
LIBUSB_ERROR_NOT_SUPPORTED, not LIBUSB_ERROR_NO_DEVICE. -/
def solaris_cancel_transfer (_itransfer : Unit) : LibusbCode := .errNotSupported

/-- solaris_clear_transfer_priv (line 440): empty body. -/
def solaris_clear_transfer_priv (_itransfer : Unit) : Unit := ()

/-- solaris_handle_events (line 445). -/
def solaris_handle_events (_ctx _fds _nfds _numReady : Unit) : LibusbCode := .errNoDevice

/-- the clkid argument values distinguished by solaris_clock_gettime. -/
inductive ClockId where
  | usbiRealtime
  | usbiMonotonic
  | other
deriving DecidableEq

/-- what solaris_clock_gettime does for a given clkid: delegate to the
system clock_gettime with CLOCK_REALTIME or CLOCK_MONOTONIC, or return a
libusb error code. -/
inductive ClockCall where
  | sysRealtime
  | sysMonotonic
  | code (c : LibusbCode)
deriving DecidableEq

/-- solaris_clock_gettime (lines 452-464): USBI_CLOCK_REALTIME and
USBI_CLOCK_MONOTONIC delegate to the real system clock; any other clkid
returns LIBUSB_ERROR_INVALID_PARAM. -/
def solaris_clock_gettime (clkid : ClockId) : ClockCall :=
  match clkid with
  | .usbiRealtime => .sysRealtime
  | .usbiMonotonic => .sysMonotonic
  | .other => .code .errInvalidParam

/-! Helper lemmas. -/

theorem add_device_discdevs (dn : Option DINode) (p : List Char)
    (dd : List DeviceIdentity) : (solaris_add_device dn p dd).discdevs = dd := by
  unfold solaris_add_device
  repeat' split
  all_goals rfl

theorem add_device_no_assigned (n : DINode) (p : List Char) (dd : List DeviceIdentity)
    (h : di_prop_get_int_one n "assigned-address" = none) :
    solaris_add_device (some n) p dd = ⟨dd, none, true⟩ := by
  simp [solaris_add_device, h]

theorem add_device_no_numconf (n : DINode) (p : List Char) (dd : List DeviceIdentity)
    (h : di_prop_get_int_one n "usb-num-configs" = none) :
    solaris_add_device (some n) p dd = ⟨dd, none, true⟩ := by
  cases h1 : di_prop_get_int_one n "assigned-address" with
  | none => simp [solaris_add_device, h1]
  | some busnum => simp [solaris_add_device, h1, h]

theorem add_device_no_at (n : DINode) (p : List Char) (dd : List DeviceIdentity)
    (h : strrchrSplit '@' p = none) :
    solaris_add_device (some n) p dd = ⟨dd, none, true⟩ := by
  cases h1 : di_prop_get_int_one n "assigned-address" with
  | none => simp [solaris_add_device, h1]
  | some busnum =>
    cases h2 : di_prop_get_int_one n "usb-num-configs" with
    | none => simp [solaris_add_device, h1, h2]
    | some numconf => simp [solaris_add_device, h1, h2, h]

theorem add_device_resolved_eq (n : DINode) (p : List Char) (dd : List DeviceIdentity)
    (busnum numconf : Int) (b a : List Char)
    (h1 : di_prop_get_int_one n "assigned-address" = some busnum)
    (h2 : di_prop_get_int_one n "usb-num-configs" = some numconf)
    (h3 : strrchrSplit '@' p = some (b, a)) :
    solaris_add_device (some n) p dd =
      ⟨dd, some ⟨sessionId busnum (atoi a), busnum, atoi a, numconf, deviceSpeed n⟩,
       true⟩ := by
  simp [solaris_add_device, h1, h2, h3]

theorem add_device_resolved_inv (dn : Option DINode) (p : List Char)
    (dd : List DeviceIdentity) (d : DeviceIdentity)
    (h : (solaris_add_device dn p dd).resolved = some d) :
    ∃ n b a, dn = some n ∧
      di_prop_get_int_one n "assigned-address" = some d.bus_number ∧
      di_prop_get_int_one n "usb-num-configs" = some d.num_configs ∧
      d.speed = deviceSpeed n ∧
      strrchrSplit '@' p = some (b, a) ∧
      d.device_address = atoi a ∧
      d.session_id = sessionId d.bus_number d.device_address := by
  cases dn with
  | none => simp [solaris_add_device] at h
  | some n =>
    cases h1 : di_prop_get_int_one n "assigned-address" with
    | none => rw [add_device_no_assigned n p dd h1] at h; simp at h
    | some busnum =>
      cases h2 : di_prop_get_int_one n "usb-num-configs" with
      | none => rw [add_device_no_numconf n p dd h2] at h; simp at h
      | some numconf =>
        cases h3 : strrchrSplit '@' p with
        | none => rw [add_device_no_at n p dd h3] at h; simp at h
        | some ba =>
          obtain ⟨b, a⟩ := ba
          rw [add_device_resolved_eq n p dd busnum numconf b a h1 h2 h3] at h
          simp only [Option.some.injEq] at h
          subst h
          exact ⟨n, b, a, rfl, h1, h2, rfl, rfl, rfl, rfl⟩

theorem foldl_walkFold_fst (diInit : List Char → Option DINode)
    (dd : List DeviceIdentity) (l : List (List Char)) : ∀ tr,
    (List.foldl (walkFold diInit) (dd, tr) l).1 = dd := by
  induction l with
  | nil => intro tr; rfl
  | cons p l ih =>
    intro tr
    rw [List.foldl_cons]
    have hw : walkFold diInit (dd, tr) p =
        (dd, tr ++ (solaris_add_device (diInit p) p dd).resolved.toList) := by
      simp [walkFold, add_device_discdevs]
    rw [hw]
    exact ih _

theorem walkFold_skip_step (diInit : List Char → Option DINode) (p : List Char)
    (h : ∀ dd0, (solaris_add_device (diInit p) p dd0).resolved = none)
    (s : List DeviceIdentity × List DeviceIdentity) : walkFold diInit s p = s := by
  simp [walkFold, add_device_discdevs, h]

theorem foldl_walkFold_skip (diInit : List Char → Option DINode)
    (dd tr : List DeviceIdentity) (pre post : List (List Char)) (p : List Char)
    (h : ∀ dd0, (solaris_add_device (diInit p) p dd0).resolved = none) :
    List.foldl (walkFold diInit) (dd, tr) (pre ++ p :: post) =
    List.foldl (walkFold diInit) (dd, tr) (pre ++ post) := by
  rw [List.foldl_append, List.foldl_append, List.foldl_cons,
     walkFold_skip_step diInit p h]

theorem strrchrSplit_none_iff (c : Char) (s : List Char) :
    strrchrSplit c s = none ↔ c ∉ s := by
  induction s with
  | nil => simp [strrchrSplit]
  | cons x xs ih =>
    simp only [strrchrSplit]
    cases h' : strrchrSplit c xs with
    | some ba =>
      have hmem : c ∈ xs := by
        by_contra hc
        rw [← ih] at hc
        rw [h'] at hc
        exact Option.noConfusion hc
      simp [List.mem_cons, hmem]
    | none =>
      have hnx : c ∉ xs := ih.mp h'
      by_cases hx : x = c
      · simp [hx]
      · simp [hx, List.mem_cons, hnx]
        exact fun he => hx he.symm

theorem strrchrSplit_some_spec (c : Char) : ∀ (s b a : List Char),
    strrchrSplit c s = some (b, a) → s = b ++ c :: a ∧ c ∉ a := by
  intro s
  induction s with
  | nil => intro b a h; exact Option.noConfusion h
  | cons x xs ih =>
    intro b a h
    simp only [strrchrSplit] at h
    cases h' : strrchrSplit c xs with
    | some ba =>
      obtain ⟨b', a'⟩ := ba
      rw [h'] at h
      simp only [Option.some.injEq, Prod.mk.injEq] at h
      obtain ⟨hb, ha⟩ := h
      obtain ⟨hs, hna⟩ := ih b' a' h'
      subst hb; subst ha
      exact ⟨by rw [hs]; rfl, hna⟩
    | none =>
      rw [h'] at h
      by_cases hx : x = c
      · rw [if_pos hx] at h
        simp only [Option.some.injEq, Prod.mk.injEq] at h
        obtain ⟨hb, ha⟩ := h
        subst hb; subst ha
        exact ⟨by rw [hx]; rfl, (strrchrSplit_none_iff c _).mp h'⟩
      · rw [if_neg hx] at h
        exact Option.noConfusion h

/-! Concrete fixtures. -/

/-- concrete device node: assigned-address = 18 (0x12), usb-num-configs = 1,
no speed properties. -/
def nodeA : DINode :=
  ⟨fun s => if s = "assigned-address" then some [18]
            else if s = "usb-num-configs" then some [1] else none⟩

/-- concrete environment: one group "12.34" holding one instance whose
devstat witness resolves to a fully well-formed device-tree path, and whose
node carries every property the resolver requires. -/
def envA : WalkEnv :=
  ⟨true,
   some [⟨"12.34".data, true, [⟨"0".data, some "/devices/usb@2:a".data⟩]⟩],
   fun _ => some nodeA⟩

/-- generic device node carrying assigned-address = b and
usb-num-configs = c and nothing else. -/
def mkNode (b c : Int) : DINode :=
  ⟨fun s => if s = "assigned-address" then some [b]
            else if s = "usb-num-configs" then some [c] else none⟩

/-- device node with assigned-address present but no usb-num-configs. -/
def nodeNoConf : DINode :=
  ⟨fun s => if s = "assigned-address" then some [5] else none⟩

/-- device node whose usb-num-configs property is 0. -/
def nodeZeroConf : DINode :=
  ⟨fun s => if s = "assigned-address" then some [5]
            else if s = "usb-num-configs" then some [0] else none⟩

/-! Claim theorems. -/

/-- C1 counterexample: the claim says every successful identity derivation
appends one DeviceIdentity to the discovered-devices collection.  In this
concrete discovery pass the single candidate resolves completely — the
derivation trace holds exactly its identity — yet the collection passed in
empty comes back empty: solaris_add_device never appends to discdevs. -/
theorem C1_counterexample :
    (solaris_get_device_list envA []).2.2 = [⟨4610, 18, 2, 1, .full⟩] ∧
    (solaris_get_device_list envA []).2.1 = [] := by decide

/-- C1 (amended): the resolver emits nothing to the external registry: the
discovered-devices collection is returned unchanged by every
solaris_add_device call and by the whole discovery pass; a successfully
derived identity exists only in local variables and is dropped. -/
theorem C1_no_emission :
    (∀ dn p dd, (solaris_add_device dn p dd).discdevs = dd) ∧
    (∀ env dd, (solaris_get_device_list env dd).2.1 = dd) := by
  constructor
  · exact add_device_discdevs
  · intro env dd
    unfold solaris_get_device_list
    split
    · rfl
    · split
      · rfl
      · exact foldl_walkFold_fst _ _ _ _

/-- C2: every derived identity satisfies
session_id = (bus_number << 8) | device_address over the raw Int values
(the shift modelled as multiplication by 256), and no 8-bit range check is
applied: derivation succeeds for every raw busnum and numconf value. -/
theorem C2_session_id :
    (∀ dn p dd d, (solaris_add_device dn p dd).resolved = some d →
      d.session_id = Int.lor (d.bus_number * 256) d.device_address) ∧
    (∀ b c : Int,
      (solaris_add_device (some (mkNode b c)) "/device@52".data []).resolved =
        some ⟨Int.lor (b * 256) 52, b, 52, c, .full⟩) := by
  constructor
  · intro dn p dd d h
    obtain ⟨n, b, a, -, -, -, -, -, -, hs⟩ := add_device_resolved_inv dn p dd d h
    exact hs
  · intro b c
    have h1 : di_prop_get_int_one (mkNode b c) "assigned-address" = some b := rfl
    have h2 : di_prop_get_int_one (mkNode b c) "usb-num-configs" = some c := rfl
    have h3 : strrchrSplit '@' "/device@52".data =
        some ("/device".data, "52".data) := by decide
    have ha : atoi "52".data = 52 := by decide
    have hsp : deviceSpeed (mkNode b c) = .full := rfl
    rw [add_device_resolved_eq _ _ _ b c _ _ h1 h2 h3, ha, hsp]
    rfl

/-- C2 witness: the invariant instantiated on a concrete node with
bus_number 0x12 = 18 and device_address 0x34 = 52, whose session_id is
0x1234 = 4660. -/
theorem C2_session_id_witness :
    (solaris_add_device (some (mkNode 18 1)) "/device@52".data []).resolved =
      some ⟨4660, 18, 52, 1, .full⟩ ∧
    (DeviceIdentity.mk 4660 18 52 1 .full).session_id =
      Int.lor ((DeviceIdentity.mk 4660 18 52 1 .full).bus_number * 256)
        (DeviceIdentity.mk 4660 18 52 1 .full).device_address :=
  ⟨by decide,
   C2_session_id.1 (some (mkNode 18 1)) "/device@52".data []
     ⟨4660, 18, 52, 1, .full⟩ (by decide)⟩

/-- C3 counterexample: the claim says a missing usb-num-configs property
still yields an identity with num_configs defaulted to 1, and that every
produced identity has num_configs >= 1.  On a node well-formed except for
an unreadable usb-num-configs no identity is derived at all (the candidate
is discarded), and a node carrying usb-num-configs = 0 yields an identity
with num_configs = 0. -/
theorem C3_counterexample :
    (solaris_add_device (some nodeNoConf) "/device@7".data []).resolved = none ∧
    (solaris_add_device (some nodeZeroConf) "/device@7".data []).resolved =
      some ⟨1287, 5, 7, 0, .full⟩ := by decide

/-- C3 (amended): usb-num-configs is required: when its lookup does not
return exactly one value the candidate is discarded — no identity, node
handle still released, collection untouched — and every derived identity
carries the raw looked-up value as num_configs, with no defaulting and no
lower-bound check. -/
theorem C3_num_configs_required :
    (∀ n p dd, di_prop_get_int_one n "usb-num-configs" = none →
      solaris_add_device (some n) p dd = ⟨dd, none, true⟩) ∧
    (∀ dn p dd d, (solaris_add_device dn p dd).resolved = some d →
      ∃ n, dn = some n ∧
        di_prop_get_int_one n "usb-num-configs" = some d.num_configs) := by
  constructor
  · exact add_device_no_numconf
  · intro dn p dd d h
    obtain ⟨n, b, a, hdn, -, h2, -, -, -, -⟩ := add_device_resolved_inv dn p dd d h
    exact ⟨n, hdn, h2⟩

/-- C3 witness: the discard branch taken on the concrete node lacking
usb-num-configs. -/
theorem C3_witness :
    di_prop_get_int_one nodeNoConf "usb-num-configs" = none ∧
    solaris_add_device (some nodeNoConf) "/device@7".data [] = ⟨[], none, true⟩ :=
  ⟨by decide, C3_num_configs_required.1 _ _ _ (by decide)⟩

/-- group entry whose name "z1.2z" is not of the whole-name hex.hex form
but contains the substring "1.2". -/
def groupZ : GroupEntry :=
  ⟨"z1.2z".data, true, [⟨"0".data, some "/devices/usb@1:x".data⟩]⟩

/-- group entry whose name contains no hex.hex substring at all. -/
def groupR : GroupEntry := ⟨"readme".data, true, []⟩

/-- C4 counterexample: the entry named "z1.2z" does not match the anchored
pattern as a whole name, yet the walk hands it to per-group processing and
its instance reaches the resolver: POSIX regexec searches for the
unanchored pattern anywhere in the name. -/
theorem C4_counterexample :
    isFullHexDotHex "z1.2z".data = false ∧
    regexecHexDotHex "z1.2z".data = true ∧
    walkCandidates [groupZ] = ["/usb@1".data] := by decide

/-- C4 (amended): a top-level entry is handed to per-group processing
exactly when its name CONTAINS a substring matching [0-9a-f]+\.[0-9a-f]+
(and additionally fits the vidpid path buffer and its directory opens); an
entry containing no such substring is skipped and contributes no resolver
candidates. -/
theorem C4_unanchored_filter :
    (∀ g, regexecHexDotHex g.name = false → groupCandidates g = []) ∧
    (∀ g, regexecHexDotHex g.name = true → 9 + g.name.length < 19 →
      g.opens = true →
      groupCandidates g =
        g.instances.filterMap (instanceCandidate g.name.length)) := by
  constructor
  · intro g h
    simp [groupCandidates, h]
  · intro g h hl ho
    have hc : ¬ (19 ≤ 9 + g.name.length) := by omega
    simp [groupCandidates, h, ho, hc]

/-- C4 witness: the group named "readme" has no hex.hex substring and is
skipped entirely. -/
theorem C4_witness :
    regexecHexDotHex groupR.name = false ∧ groupCandidates groupR = [] :=
  ⟨by decide, C4_unanchored_filter.1 groupR (by decide)⟩

/-- C5 counterexample: for the resolved path /devices/a@1:b:c the claimed
first-colon truncation would hand /a@1 to the resolver; the code truncates
with strrchr at the LAST colon and hands over /a@1:b, which still contains
a colon. -/
theorem C5_counterexample :
    stripAndTrunc "/devices/a@1:b:c".data = some "/a@1:b".data ∧
    "/a@1:b".data ≠ "/a@1".data ∧
    ':' ∈ "/a@1:b".data := by decide

/-- C5 (amended): after stripping the /devices prefix the walker truncates
the remainder at the LAST colon — only the suffix after the final colon
(which itself contains no colon) is removed, so text between an earlier
colon and the final one survives — and a remainder without any colon is
passed through unmodified. -/
theorem C5_last_colon :
    (∀ rest b a, strrchrSplit ':' rest = some (b, a) →
      stripAndTrunc (devicesChars ++ rest) = some b ∧
      rest = b ++ ':' :: a ∧ ':' ∉ a) ∧
    (∀ rest, strrchrSplit ':' rest = none →
      stripAndTrunc (devicesChars ++ rest) = some rest ∧ ':' ∉ rest) := by
  have htake : ∀ rest : List Char, (devicesChars ++ rest).take 8 = devicesChars :=
    fun rest => rfl
  have hdrop : ∀ rest : List Char, (devicesChars ++ rest).drop 8 = rest :=
    fun rest => rfl
  constructor
  · intro rest b a h
    obtain ⟨hs, hna⟩ := strrchrSplit_some_spec ':' rest b a h
    refine ⟨?_, hs, hna⟩
    simp [stripAndTrunc, htake rest, hdrop rest, h]
  · intro rest h
    refine ⟨?_, (strrchrSplit_none_iff ':' rest).mp h⟩
    simp [stripAndTrunc, htake rest, hdrop rest, h]

/-- C5 witness: the truncation applied to the two-colon remainder
a@1:b:c, splitting at the last colon. -/
theorem C5_witness :
    strrchrSplit ':' "a@1:b:c".data = some ("a@1:b".data, "c".data) ∧
    (stripAndTrunc (devicesChars ++ "a@1:b:c".data) = some "a@1:b".data ∧
     "a@1:b:c".data = "a@1:b".data ++ ':' :: "c".data ∧ ':' ∉ "c".data) :=
  ⟨by decide, C5_last_colon.1 "a@1:b:c".data "a@1:b".data "c".data (by decide)⟩

/-- C6: speed classification probes low-speed, full-speed, high-speed,
super-speed in exactly that order; the first whose lookup code is >= 0
(presence, even with an empty value list) wins; when all four lookups fail
the speed defaults to Full; and every derived identity's speed is exactly
this classification of its node. -/
theorem C6_speed_priority :
    (∀ n, 0 ≤ di_prop_get_int_ret n "low-speed" → deviceSpeed n = .low) ∧
    (∀ n, di_prop_get_int_ret n "low-speed" < 0 →
      0 ≤ di_prop_get_int_ret n "full-speed" → deviceSpeed n = .full) ∧
    (∀ n, di_prop_get_int_ret n "low-speed" < 0 →
      di_prop_get_int_ret n "full-speed" < 0 →
      0 ≤ di_prop_get_int_ret n "high-speed" → deviceSpeed n = .high) ∧
    (∀ n, di_prop_get_int_ret n "low-speed" < 0 →
      di_prop_get_int_ret n "full-speed" < 0 →
      di_prop_get_int_ret n "high-speed" < 0 →
      0 ≤ di_prop_get_int_ret n "super-speed" → deviceSpeed n = .super) ∧
    (∀ n, di_prop_get_int_ret n "low-speed" < 0 →
      di_prop_get_int_ret n "full-speed" < 0 →
      di_prop_get_int_ret n "high-speed" < 0 →
      di_prop_get_int_ret n "super-speed" < 0 → deviceSpeed n = .full) ∧
    (∀ dn p dd d, (solaris_add_device dn p dd).resolved = some d →
      ∃ n, dn = some n ∧ d.speed = deviceSpeed n) := by
  refine ⟨?_, ?_, ?_, ?_, ?_, ?_⟩
  · intro n h
    simp [deviceSpeed, h]
  · intro n h1 h2
    simp [deviceSpeed, not_le.mpr h1, h2]
  · intro n h1 h2 h3
    simp [deviceSpeed, not_le.mpr h1, not_le.mpr h2, h3]
  · intro n h1 h2 h3 h4
    simp [deviceSpeed, not_le.mpr h1, not_le.mpr h2, not_le.mpr h3, h4]
  · intro n h1 h2 h3 h4
    simp [deviceSpeed, not_le.mpr h1, not_le.mpr h2, not_le.mpr h3, not_le.mpr h4]
  · intro dn p dd d h
    obtain ⟨n, b, a, hdn, -, -, hsp, -, -, -⟩ := add_device_resolved_inv dn p dd d h
    exact ⟨n, hdn, hsp⟩

/-- device node carrying an empty low-speed property together with a
high-speed property. -/
def nodeLowHigh : DINode :=
  ⟨fun s => if s = "low-speed" then some []
            else if s = "high-speed" then some [1] else none⟩

/-- C6 witness: a node with both low-speed (empty but present, lookup
code 0) and high-speed classifies as Low. -/
theorem C6_witness :
    (0 ≤ di_prop_get_int_ret nodeLowHigh "low-speed") ∧
    deviceSpeed nodeLowHigh = .low :=
  ⟨by decide, C6_speed_priority.1 nodeLowHigh (by decide)⟩

/-- C7: when the assigned-address lookup does not yield exactly one value
the candidate is discarded — no identity, node handle released, collection
untouched — and the surrounding walk folds over the remaining candidates
exactly as if the discarded candidate were absent. -/
theorem C7_assigned_address_required :
    (∀ n p dd, di_prop_get_int_one n "assigned-address" = none →
      solaris_add_device (some n) p dd = ⟨dd, none, true⟩) ∧
    (∀ diInit dd tr pre post p n, diInit p = some n →
      di_prop_get_int_one n "assigned-address" = none →
      List.foldl (walkFold diInit) (dd, tr) (pre ++ p :: post) =
      List.foldl (walkFold diInit) (dd, tr) (pre ++ post)) := by
  constructor
  · exact add_device_no_assigned
  · intro diInit dd tr pre post p n hn h
    apply foldl_walkFold_skip
    intro dd0
    rw [hn, add_device_no_assigned n p dd0 h]

/-- device node with no readable properties at all. -/
def nodeBare : DINode := ⟨fun _ => none⟩

/-- C7 witness: a candidate lacking assigned-address leaves the walk state
exactly as the walk without it. -/
theorem C7_witness :
    ((fun _ : List Char => some nodeBare) "/bad@1".data = some nodeBare) ∧
    di_prop_get_int_one nodeBare "assigned-address" = none ∧
    List.foldl (walkFold (fun _ => some nodeBare)) ([], [])
      ([] ++ "/bad@1".data :: ["/usb@2".data]) =
    List.foldl (walkFold (fun _ => some nodeBare)) ([], [])
      ([] ++ ["/usb@2".data]) :=
  ⟨rfl, by decide,
   C7_assigned_address_required.2 (fun _ => some nodeBare) [] [] []
     ["/usb@2".data] "/bad@1".data nodeBare rfl (by decide)⟩

/-- C8: the only two fatal outcomes of discovery are regcomp failure
(LIBUSB_ERROR_NO_MEM) and an unopenable root directory
(LIBUSB_ERROR_ACCESS), both with no partial results — empty derivation
trace, collection untouched; whenever regcomp succeeds and the root opens,
the walk runs to completion and returns LIBUSB_ERROR_NO_DEVICE whatever
per-candidate failures the environment holds. -/
theorem C8_fatal_conditions :
    (∀ env dd, env.regcompOk = false →
      solaris_get_device_list env dd = (.errNoMem, dd, [])) ∧
    (∀ env dd, env.regcompOk = true → env.rootDir = none →
      solaris_get_device_list env dd = (.errAccess, dd, [])) ∧
    (∀ env dd root, env.regcompOk = true → env.rootDir = some root →
      (solaris_get_device_list env dd).1 = .errNoDevice) := by
  refine ⟨?_, ?_, ?_⟩
  · intro env dd h
    simp [solaris_get_device_list, h]
  · intro env dd h1 h2
    simp [solaris_get_device_list, h1, h2]
  · intro env dd root h1 h2
    simp [solaris_get_device_list, h1, h2]

/-- C8 witness: a failing regcomp aborts with the no-memory code and no
results. -/
theorem C8_witness :
    (WalkEnv.regcompOk ⟨false, none, fun _ => none⟩ = false) ∧
    solaris_get_device_list ⟨false, none, fun _ => none⟩ [] =
      (.errNoMem, [], []) :=
  ⟨rfl, C8_fatal_conditions.1 ⟨false, none, fun _ => none⟩ [] rfl⟩

/-- C9: a resolver path without any '@' is discarded — no identity, node
handle released, collection untouched — and the walk folds on unaffected;
when an identity is derived its device address is the permissive atoi
parse of the substring after the LAST '@': trailing non-numeric text is
cut off and a digitless string parses as 0. -/
theorem C9_no_at_discard :
    (∀ n p dd, '@' ∉ p →
      solaris_add_device (some n) p dd = ⟨dd, none, true⟩) ∧
    (∀ diInit dd tr pre post p, '@' ∉ p →
      List.foldl (walkFold diInit) (dd, tr) (pre ++ p :: post) =
      List.foldl (walkFold diInit) (dd, tr) (pre ++ post)) ∧
    (∀ dn p dd d, (solaris_add_device dn p dd).resolved = some d →
      ∃ b a, strrchrSplit '@' p = some (b, a) ∧ p = b ++ '@' :: a ∧
        '@' ∉ a ∧ d.device_address = atoi a) ∧
    atoi "12ab".data = 12 ∧ atoi "abc".data = 0 := by
  refine ⟨?_, ?_, ?_, by decide, by decide⟩
  · intro n p dd h
    exact add_device_no_at n p dd ((strrchrSplit_none_iff '@' p).mpr h)
  · intro diInit dd tr pre post p h
    apply foldl_walkFold_skip
    intro dd0
    have hnone := (strrchrSplit_none_iff '@' p).mpr h
    cases hd : diInit p with
    | none => rfl
    | some n => rw [add_device_no_at n p dd0 hnone]
  · intro dn p dd d h
    obtain ⟨n, b, a, -, -, -, -, h3, hda, -⟩ := add_device_resolved_inv dn p dd d h
    obtain ⟨hp, hna⟩ := strrchrSplit_some_spec '@' p b a h3
    exact ⟨b, a, h3, hp, hna, hda⟩

/-- C9 witness: the discard branch taken on a concrete path lacking an
at-sign, on a node providing every required property. -/
theorem C9_witness :
    ('@' ∉ "noatsign".data) ∧
    solaris_add_device (some nodeA) "noatsign".data [] = ⟨[], none, true⟩ :=
  ⟨by decide, C9_no_at_discard.1 nodeA "noatsign".data [] (by decide)⟩

/-- C10 counterexample: transfer cancellation and clock access are among
the claimed no-op / device-absent entry points, but
solaris_cancel_transfer returns LIBUSB_ERROR_NOT_SUPPORTED — a different
error — and solaris_clock_gettime is no stub: it delegates to the system
clock rather than doing nothing or reporting the device absent. -/
theorem C10_counterexample :
    solaris_cancel_transfer () = .errNotSupported ∧
    LibusbCode.errNotSupported ≠ LibusbCode.errNoDevice ∧
    solaris_clock_gettime .usbiRealtime = .sysRealtime ∧
    ClockCall.sysRealtime ≠ .code .errNoDevice := by decide

/-- C10 (amended): every out-of-scope backend entry point either does
nothing or returns the device-absent code, with two exceptions: transfer
cancellation returns the not-supported code, and clock access delegates to
the system clock for the realtime and monotonic clock ids and returns the
invalid-parameter code for any other id. -/
theorem C10_stub_results :
    solaris_open () = .errNoDevice ∧
    solaris_close () = () ∧
    solaris_get_device_descriptor () () () = .errNoDevice ∧
    solaris_get_active_config_descriptor () () () () = .errNoDevice ∧
    solaris_get_config_descriptor () () () () () = .errNoDevice ∧
    solaris_get_configuration () () = .errNoDevice ∧
    solaris_set_configuration () () = .errNoDevice ∧
    solaris_claim_interface () () = .errNoDevice ∧
    solaris_release_interface () () = .errNoDevice ∧
    solaris_set_interface_altsetting () () () = .errNoDevice ∧
    solaris_clear_halt () () = .errNoDevice ∧
    solaris_reset_device () = .errNoDevice ∧
    solaris_destroy_device () = () ∧
    solaris_submit_transfer () = .errNoDevice ∧
    solaris_cancel_transfer () = .errNotSupported ∧
    solaris_clear_transfer_priv () = () ∧
    solaris_handle_events () () () () = .errNoDevice ∧
    solaris_clock_gettime .usbiRealtime = .sysRealtime ∧
    solaris_clock_gettime .usbiMonotonic = .sysMonotonic ∧
    solaris_clock_gettime .other = .code .errInvalidParam := by decide

end SolarisUsb
